import Mathlib

/-!
Verification of the empath plugin-hook boundary.

The repository ships example C plugins (`src/examples/example.c`,
`src/examples/event.c`, `src/empath-ffi/examples/event.c`,
`src/empath-ffi/examples/log.c`) that exercise the `em_context_*` API of the
host library.  The host-side implementation of the Context and the Dispatcher
is not part of the sources here, so those operations are modelled from the
spec; the example hooks themselves are translated from the C sources.

Machine strings crossing the boundary are length-prefixed byte strings; we
model their payload as Lean `String` and track ownership events separately
where a claim is about the allocation/free discipline.
-/

/-- SMTP lifecycle checkpoints at which validation modules run. -/
inductive Checkpoint
  | connect
  | starttls
  | data
deriving DecidableEq

/-- Transaction states of the validation state machine
(`Connect → (optional StartTLS) → Data → Complete`, absorbing `Rejected`). -/
inductive TxState
  | Connect
  | StartTLS
  | Data
  | Complete
  | Rejected
deriving DecidableEq

/-- Lifecycle event kinds (`Ev` in `empath.h`), as matched by the example
event modules. -/
inductive Ev
  | ConnectionOpened
  | ConnectionClosed
  | DeliveryAttempt
  | DeliverySuccess
  | DeliveryFailure
deriving DecidableEq

/-- Modelled from the spec: the per-transaction Context.  The host-side
(Rust) implementation is not among the sources; fields follow §3 of the
spec: lazily assigned identity, optional sender, read-only recipients,
optional data buffer, optional TLS descriptor (protocol name, cipher name),
optional response override, and the auxiliary key-value store (unique
keys, kept as an association list). -/
structure Context where
  id : Option String
  sender : Option String
  recipients : List String
  dataBuf : Option String
  tls : Option (String × String)
  response : Option (Nat × String)
  aux : List (String × String)
deriving DecidableEq

/-- Modelled from the spec: `em_context_get_id` returns the transaction
identifier, assigning one (a random fixed-width hex token, supplied here as
the `fresh` parameter) on first call if none exists yet; this assignment is
the one mutating side effect among the getters, so only this getter returns
an updated Context. -/
def em_context_get_id (fresh : String) (c : Context) : String × Context :=
  match c.id with
  | some i => (i, c)
  | none => (fresh, { c with id := some fresh })

/-- Modelled from the spec: `em_context_get_sender` (empty when unset). -/
def em_context_get_sender (c : Context) : String :=
  c.sender.getD ""

/-- Modelled from the spec: basic mailbox-syntax validation used by
`em_context_set_sender` — a single `@` separating a nonempty local part
from a nonempty domain. -/
def mailboxValid (s : String) : Bool :=
  let cs := s.toList
  (cs.count '@' == 1) && (cs.head? != some '@') && (cs.getLast? != some '@')

/-- Modelled from the spec: `em_context_set_sender` fails (reported, not
fatal) if the address fails basic mailbox-syntax validation; success
replaces any prior sender. -/
def em_context_set_sender (c : Context) (addr : String) : Bool × Context :=
  if mailboxValid addr then (true, { c with sender := some addr })
  else (false, c)

/-- Modelled from the spec: `em_context_get_recipients`, a read-only
snapshot of the current recipients. -/
def em_context_get_recipients (c : Context) : List String :=
  c.recipients

/-- Modelled from the spec: `em_context_get_data` is empty before the DATA
phase began. -/
def em_context_get_data (c : Context) : String :=
  c.dataBuf.getD ""

/-- Modelled from the spec: `em_context_is_tls`; the TLS descriptor is
absent iff the connection is unencrypted. -/
def em_context_is_tls (c : Context) : Bool :=
  c.tls.isSome

/-- Modelled from the spec: `em_context_tls_protocol`, empty when the
connection is not TLS. -/
def em_context_tls_protocol (c : Context) : String :=
  (c.tls.map Prod.fst).getD ""

/-- Modelled from the spec: `em_context_tls_cipher`, empty when the
connection is not TLS. -/
def em_context_tls_cipher (c : Context) : String :=
  (c.tls.map Prod.snd).getD ""

/-- Modelled from the spec: `em_context_exists`, auxiliary-store key
presence. -/
def em_context_exists (c : Context) (k : String) : Bool :=
  c.aux.any (fun p => p.1 == k)

/-- Modelled from the spec: `em_context_get`; on a missing key it returns
an empty Owned String, not a failure. -/
def em_context_get (c : Context) (k : String) : String :=
  match c.aux.find? (fun p => p.1 == k) with
  | some p => p.2
  | none => ""

/-- Modelled from the spec: `em_context_set`, inserting or replacing the
binding for `k` while keeping keys unique. -/
def em_context_set (c : Context) (k v : String) : Context :=
  { c with aux := (k, v) :: c.aux.filter (fun p => p.1 != k) }

/-- Modelled from the spec: the valid SMTP status-code range for replies
(2xx through 5xx). -/
def validStatusCode (code : Nat) : Bool :=
  (200 ≤ code) && (code ≤ 599)

/-- Modelled from the spec: `em_context_set_response` overrides the default
reply for the current checkpoint; fails if the code is out of range. -/
def em_context_set_response (c : Context) (code : Nat) (text : String) :
    Bool × Context :=
  if validStatusCode code then (true, { c with response := some (code, text) })
  else (false, c)

/-- Log line as built by `create` in `src/empath-ffi/examples/log.c`
(the `service`, `id` and `message` fields; timestamps and printing are
I/O and are not modelled). -/
structure Line where
  id : String
  service : String
  message : String

/-- Translated from `create` in `src/empath-ffi/examples/log.c`: if the
auxiliary key `"mid"` is absent it is set to a random 16-hex-digit token
(supplied here as `fmid`); the line's service is the aux `"service"` value
when present, else empty; the line's id is the aux `"mid"` value.  Printing
and `srandom` seeding are I/O and are not modelled. -/
def create (fmid : String) (c : Context) (msg : String) : Line × Context :=
  let c1 := if em_context_exists c "mid" then c else em_context_set c "mid" fmid
  let service :=
    if em_context_exists c1 "service" then em_context_get c1 "service" else ""
  ({ id := em_context_get c1 "mid", service := service, message := msg }, c1)

/-- Translated from `test` in `src/examples/example.c`: fetches the
transaction id (lazily assigning `fid`), logs it via `create` (which may
set the `"mid"` aux key), and frees the id string (a free does not change
the Context). -/
def test (fid fmid : String) (c : Context) : Context :=
  let ic := em_context_get_id fid c
  (create fmid ic.2 ic.1).2

/-- Translated from `validate_connect` in `src/examples/example.c`: logs
"Validating Connection" and returns 0. -/
def validate_connect (fmid : String) (c : Context) : Int × Context :=
  let lc := create fmid c "Validating Connection"
  (0, lc.2)

/-- Translated from `validate_starttls` in `src/examples/example.c`: logs,
returns 1 when the connection is not TLS, else logs the TLS protocol and
cipher and returns 0. -/
def validate_starttls (fmid : String) (c : Context) : Int × Context :=
  let lc := create fmid c "Validating STARTTLS"
  let c1 := lc.2
  if !em_context_is_tls c1 then (1, c1)
  else
    let lp := create fmid c1 ("TLS Protocol: " ++ em_context_tls_protocol c1)
    let lcph := create fmid lp.2 ("TLS Cipher: " ++ em_context_tls_cipher lp.2)
    (0, lcph.2)

/-- The recipient-logging loop of `validate_data` in
`src/examples/example.c`: one `create` call per recipient. -/
def logRecipients (fmid : String) (c : Context) (rcpts : List String) : Context :=
  rcpts.foldl (fun acc r => (create fmid acc ("Recipient: " ++ r)).2) c

/-- The Context of `validate_data` in `src/examples/example.c` just before
its `set_sender` call: after `test`, the aux write `set("test", "random")`,
the recipient-logging loop, and the log of the then-current sender. -/
def vd_before_set_sender (fid fmid : String) (c : Context) : Context :=
  let c1 := test fid fmid c
  let c2 := em_context_set c1 "test" "random"
  let c3 := logRecipients fmid c2 (em_context_get_recipients c2)
  (create fmid c3 ("Sender: " ++ em_context_get_sender c3 ++ "\n")).2

/-- The Context at the rejection guard of `validate_data` in
`src/examples/example.c`: after `set_sender("tester@gmail.com")`, the logs
of the new sender and the data buffer, and
`set_response(250, "OK [mid]")`. -/
def vd_before_guard (fid fmid : String) (c : Context) : Context :=
  let c4 := vd_before_set_sender fid fmid c
  let c5 := (em_context_set_sender c4 "tester@gmail.com").2
  let c6 := (create fmid c5 ("Sender: " ++ em_context_get_sender c5 ++ "\n")).2
  let c7 := (create fmid c6 ("Data:\n" ++ em_context_get_data c6 ++ "\n")).2
  (em_context_set_response c7 250
    ("OK [" ++ em_context_get c7 "mid" ++ "]")).2

/-- Translated from `validate_data` in `src/examples/example.c`, threading
the Context through every mutating call in source order (staged through
`vd_before_set_sender` and `vd_before_guard`), ending in the rejection
branch guarded by the sender comparing equal to `"test@gmail.com"`; the
trailing `exists("test")` branch only reads and prints, so it leaves the
Context unchanged and both paths return 0. -/
def validate_data (fid fmid : String) (c : Context) : Int × Context :=
  let c8 := vd_before_guard fid fmid c
  if em_context_get_sender c8 == "test@gmail.com" then
    (1, (em_context_set_response c8 421 "4.2.1 Failure!").2)
  else
    (0, c8)

/-- Ownership events at the FFI boundary: allocation of an Owned String or
Owned String Collection by an accessor, and its release by the matching
free operation. -/
inductive OwnEvent
  | allocString
  | allocVector
  | freeString
  | freeVector
deriving DecidableEq

/-- Whether an ownership event is an allocation. -/
def isAlloc : OwnEvent → Bool
  | .allocString => true
  | .allocVector => true
  | _ => false

/-- Whether an ownership event is a release. -/
def isFree : OwnEvent → Bool
  | .freeString => true
  | .freeVector => true
  | _ => false

/-- The allocation/free count balance of spec §8: every allocation matched
by exactly one free. -/
def ownBalanced (t : List OwnEvent) : Bool :=
  t.countP isAlloc == t.countP isFree

/-- Translated from `create` in `src/empath-ffi/examples/log.c`,
instrumented with the ownership events it produces: `em_context_get` on
`"service"` (when that key exists) and on `"mid"` each allocate an Owned
String, and `create` frees neither (their `data` pointers are stored into
the returned Line). -/
def create_own (fmid : String) (c : Context) (msg : String) :
    Line × Context × List OwnEvent :=
  let c1 := if em_context_exists c "mid" then c else em_context_set c "mid" fmid
  let serviceEvents :=
    if em_context_exists c1 "service" then [OwnEvent.allocString] else []
  let service :=
    if em_context_exists c1 "service" then em_context_get c1 "service" else ""
  ({ id := em_context_get c1 "mid", service := service, message := msg },
   c1, serviceEvents ++ [OwnEvent.allocString])

/-- Translated from `validate_starttls` in `src/examples/example.c`,
instrumented with ownership events in source order: the `create` calls'
events, plus one Owned String allocated by `em_context_tls_protocol` and
one by `em_context_tls_cipher`, both used inline via `.data` and never
passed to `em_free_string`. -/
def validate_starttls_own (fmid : String) (c : Context) :
    Int × Context × List OwnEvent :=
  let l1 := create_own fmid c "Validating STARTTLS"
  let c1 := l1.2.1
  if !em_context_is_tls c1 then (1, c1, l1.2.2)
  else
    let l2 := create_own fmid c1 ("TLS Protocol: " ++ em_context_tls_protocol c1)
    let l3 := create_own fmid l2.2.1 ("TLS Cipher: " ++ em_context_tls_cipher l2.2.1)
    (0, l3.2.1,
     l1.2.2 ++ [OwnEvent.allocString] ++ l2.2.2 ++ [OwnEvent.allocString] ++ l3.2.2)

/-- A concrete encrypted-connection Context used to evaluate the example
STARTTLS hook. -/
def tlsCtx : Context :=
  ⟨none, none, [], none, some ("TLSv1.3", "TLS_AES_128_GCM_SHA256"), none, []⟩

/-- A concrete Context whose auxiliary store holds one unrelated key. -/
def auxCtx : Context :=
  ⟨none, none, [], none, none, none, [("a", "1")]⟩

/-- Modelled from the spec: a Validation Descriptor — a name, and the
optional checkpoint entry points (`EM_DECLARE_MODULE(Validation, ...)` in
`empath.h`); the initialization entry point plays no role in per-transaction
dispatch and is not modelled here.  An entry point takes the live Context
and returns a status (0 = pass, nonzero = reject) together with the
possibly mutated Context. -/
structure ValidationModule where
  name : String
  validate_connect : Option (Context → Int × Context)
  validate_starttls : Option (Context → Int × Context)
  validate_data : Option (Context → Int × Context)

/-- Modelled from the spec: the entry points registered for a checkpoint,
in registration order, skipping modules that did not implement it. -/
def checkpointEntries (cp : Checkpoint) (mods : List ValidationModule) :
    List (Context → Int × Context) :=
  mods.filterMap fun m =>
    match cp with
    | .connect => m.validate_connect
    | .starttls => m.validate_starttls
    | .data => m.validate_data

/-- Modelled from the spec: the checkpoint-specific default rejection
reply used when the rejecting module set no response. -/
def defaultReply : Checkpoint → Nat × String
  | .connect => (554, "Connection rejected")
  | .starttls => (454, "TLS not available")
  | .data => (554, "Transaction failed")

/-- Outcome of dispatching one checkpoint: whether it rejected, the final
Context, the indices of the entry points actually invoked (in invocation
order), and the surfaced reply on rejection. -/
structure CheckpointResult where
  rejected : Bool
  ctx : Context
  trace : List Nat
  reply : Option (Nat × String)
deriving DecidableEq

/-- Modelled from the spec: checkpoint dispatch from index `i` — invoke
each entry point in order, short-circuiting on the first nonzero status,
in which case the surfaced reply is the Context's response if set, else
the default `d`. -/
def dispatchGo (d : Nat × String) (i : Nat) :
    List (Context → Int × Context) → Context → CheckpointResult
  | [], c => ⟨false, c, [], none⟩
  | m :: ms, c =>
    let rc := m c
    if rc.1 != 0 then ⟨true, rc.2, [i], some (rc.2.response.getD d)⟩
    else
      let res := dispatchGo d (i + 1) ms rc.2
      ⟨res.rejected, res.ctx, i :: res.trace, res.reply⟩

/-- Modelled from the spec: dispatch one checkpoint over the loaded
modules. -/
def dispatchCheckpoint (cp : Checkpoint) (mods : List ValidationModule)
    (c : Context) : CheckpointResult :=
  dispatchGo (defaultReply cp) 0 (checkpointEntries cp mods) c

/-- Modelled from the spec: run the remaining checkpoints of a transaction
in order; a rejection at any checkpoint moves the transaction to the
absorbing `Rejected` state with that checkpoint's surfaced reply, and an
all-pass run ends in `Complete`. -/
def runFrom (mods : List ValidationModule) :
    List Checkpoint → Context → TxState × Context × Option (Nat × String)
  | [], c => (TxState.Complete, c, none)
  | cp :: rest, c =>
    let r := dispatchCheckpoint cp mods c
    if r.rejected then (TxState.Rejected, r.ctx, r.reply)
    else runFrom mods rest r.ctx

/-- The checkpoint order of the validation state machine
(`Connect → StartTLS → Data`). -/
def checkpointOrder : List Checkpoint :=
  [Checkpoint.connect, Checkpoint.starttls, Checkpoint.data]

/-- Modelled from the spec: run one whole transaction. -/
def runTransaction (mods : List ValidationModule) (c : Context) :
    TxState × Context × Option (Nat × String) :=
  runFrom mods checkpointOrder c

/-- Modelled from the spec: event dispatch from index `i` — invoke every
event module's emission entry point in order, collecting `(index, status)`
pairs; no return value stops the iteration. -/
def dispatchEventGo (i : Nat) :
    List (Ev → Context → Int × Context) → Ev → Context →
    List (Nat × Int) × Context
  | [], _, c => ([], c)
  | m :: ms, ev, c =>
    let rc := m ev c
    let rest := dispatchEventGo (i + 1) ms ev rc.2
    ((i, rc.1) :: rest.1, rest.2)

/-- Modelled from the spec: emit a lifecycle event to every loaded event
module; the transaction state `st` is passed through untouched because
event modules cannot veto or alter transaction flow — their statuses are
collected for diagnostics only. -/
def emitEvent (mods : List (Ev → Context → Int × Context)) (ev : Ev)
    (st : TxState) (c : Context) : TxState × List (Nat × Int) × Context :=
  (st, dispatchEventGo 0 mods ev c)

/-- Concrete rejecting entry point: rejects with status 1 after writing
the aux key `"m1"`. -/
def wf1 : Context → Int × Context :=
  fun c => (1, em_context_set c "m1" "x")

/-- Concrete passing entry point writing the aux key `"m2"`. -/
def wf2 : Context → Int × Context :=
  fun c => (0, em_context_set c "m2" "y")

/-- Concrete module `M1` registering `wf1` for the data checkpoint. -/
def wM1 : ValidationModule := ⟨"M1", none, none, some wf1⟩

/-- Concrete module `M2` registering `wf2` for the data checkpoint. -/
def wM2 : ValidationModule := ⟨"M2", none, none, some wf2⟩

/-- A two-module registry where the first data-checkpoint module rejects. -/
def wMods : List ValidationModule := [wM1, wM2]

/-- A fresh, empty Context. -/
def wCtx : Context := ⟨none, none, [], none, none, none, []⟩

/-- Concrete passing entry point writing `"test" ↦ "random"` (as the
example module's `validate_data` does). -/
def wg1 : Context → Int × Context :=
  fun c => (0, em_context_set c "test" "random")

/-- Concrete rejecting entry point that does not touch the Context. -/
def wg2 : Context → Int × Context :=
  fun c => (1, c)

/-- Concrete module `N1` registering `wg1` for the data checkpoint. -/
def wN1 : ValidationModule := ⟨"N1", none, none, some wg1⟩

/-- Concrete module `N2` registering `wg2` for the data checkpoint. -/
def wN2 : ValidationModule := ⟨"N2", none, none, some wg2⟩

/-- A registry where the first module mutates the aux store and passes,
and the second rejects. -/
def wNMods : List ValidationModule := [wN1, wN2]

/-- Claim C2: auxiliary-store round trip — after `set k v` succeeds,
`exists k` holds and `get k` returns exactly `v`, for every Context, every
key and every value including the empty string. -/
theorem aux_store_round_trip (c : Context) (k v : String) :
    em_context_exists (em_context_set c k v) k = true ∧
    em_context_get (em_context_set c k v) k = v := by
  constructor
  · simp [em_context_exists, em_context_set]
  · simp [em_context_get, em_context_set, List.find?]

/-- Claim C5: if `is_tls` is false then both `tls_protocol` and
`tls_cipher` return the empty string. -/
theorem not_tls_empty_protocol_and_cipher (c : Context)
    (h : em_context_is_tls c = false) :
    em_context_tls_protocol c = "" ∧ em_context_tls_cipher c = "" := by
  unfold em_context_is_tls at h
  unfold em_context_tls_protocol em_context_tls_cipher
  cases hc : c.tls with
  | none => simp [hc]
  | some p => rw [hc] at h; simp at h

/-- Witness for `not_tls_empty_protocol_and_cipher` at a concrete
unencrypted Context. -/
theorem not_tls_empty_protocol_and_cipher_witness :
    em_context_is_tls wCtx = false ∧
    (em_context_tls_protocol wCtx = "" ∧ em_context_tls_cipher wCtx = "") :=
  ⟨rfl, not_tls_empty_protocol_and_cipher wCtx rfl⟩

/-- Claim C6: for a key absent from the auxiliary store, `get` returns an
empty Owned String (not a failure) and `exists` returns false, so `exists`
is what distinguishes an absent key from a key mapped to the empty
string. -/
theorem missing_key_get_empty_exists_false (c : Context) (k : String)
    (h : ∀ p ∈ c.aux, p.1 ≠ k) :
    em_context_exists c k = false ∧ em_context_get c k = "" := by
  have hf : c.aux.find? (fun p => p.1 == k) = none := by
    rw [List.find?_eq_none]
    intro p hp
    simpa using h p hp
  constructor
  · unfold em_context_exists
    rw [List.any_eq_false]
    intro p hp
    simpa using h p hp
  · unfold em_context_get
    rw [hf]

/-- Witness for `missing_key_get_empty_exists_false` on a Context whose
store holds only the key `"a"`, queried at `"b"`. -/
theorem missing_key_get_empty_exists_false_witness :
    (∀ p ∈ auxCtx.aux, p.1 ≠ "b") ∧
    (em_context_exists auxCtx "b" = false ∧ em_context_get auxCtx "b" = "") :=
  ⟨by decide, missing_key_get_empty_exists_false auxCtx "b" (by decide)⟩

/-- Claim C7: `get_id` is idempotent after first assignment — a second
call returns the same identifier and leaves the Context unchanged,
whatever fresh token the second call could have drawn; in this model the
lazy id assignment is the only getter that returns a modified Context. -/
theorem get_id_idempotent (f g : String) (c : Context) :
    em_context_get_id g (em_context_get_id f c).2 =
      ((em_context_get_id f c).1, (em_context_get_id f c).2) := by
  cases hid : c.id with
  | none => simp [em_context_get_id, hid]
  | some i => simp [em_context_get_id, hid]

/-- Claim C10: the connect entry point of the example validation module
returns 0 (pass) for every Context, so it alone never rejects at the
connect checkpoint. -/
theorem validate_connect_returns_zero (fmid : String) (c : Context) :
    (validate_connect fmid c).1 = 0 := rfl

/-- Setting an auxiliary key leaves the sender unchanged. -/
theorem sender_em_context_set (c : Context) (k v : String) :
    (em_context_set c k v).sender = c.sender := rfl

/-- The log helper `create` leaves the sender unchanged. -/
theorem sender_create (fmid : String) (c : Context) (m : String) :
    ((create fmid c m).2).sender = c.sender := by
  by_cases h : em_context_exists c "mid" <;> simp [create, h, em_context_set]

/-- Lazy id assignment leaves the sender unchanged. -/
theorem sender_get_id (f : String) (c : Context) :
    ((em_context_get_id f c).2).sender = c.sender := by
  cases hid : c.id <;> simp [em_context_get_id, hid]

/-- The example module's `test` helper leaves the sender unchanged. -/
theorem sender_test (fid fmid : String) (c : Context) :
    (test fid fmid c).sender = c.sender := by
  unfold test
  rw [sender_create, sender_get_id]

/-- The recipient-logging loop leaves the sender unchanged. -/
theorem sender_logRecipients (fmid : String) (l : List String) (c : Context) :
    (logRecipients fmid c l).sender = c.sender := by
  induction l generalizing c with
  | nil => rfl
  | cons x xs ih =>
    unfold logRecipients at ih ⊢
    rw [List.foldl_cons, ih, sender_create]

/-- Setting a response leaves the sender unchanged. -/
theorem sender_set_response (c : Context) (n : Nat) (t : String) :
    ((em_context_set_response c n t).2).sender = c.sender := by
  by_cases h : validStatusCode n <;> simp [em_context_set_response, h]

/-- A successful `set_sender` stores exactly the given address. -/
theorem sender_set_sender_valid (c : Context) (a : String)
    (h : mailboxValid a = true) :
    ((em_context_set_sender c a).2).sender = some a := by
  simp [em_context_set_sender, h]

/-- The address the example module passes to `set_sender` satisfies basic
mailbox syntax. -/
theorem mailbox_tester : mailboxValid "tester@gmail.com" = true := by decide

/-- At the rejection guard of the example `validate_data`, the sender is
exactly the address the module itself just set. -/
theorem vd_before_guard_sender (fid fmid : String) (c : Context) :
    (vd_before_guard fid fmid c).sender = some "tester@gmail.com" := by
  simp only [vd_before_guard]
  rw [sender_set_response, sender_create, sender_create,
    sender_set_sender_valid _ _ mailbox_tester]

/-- Claim C4: under the spec's `set_sender` postcondition, the rejection
branch of the example `validate_data` (comparing the sender to
`"test@gmail.com"` right after setting it to `"tester@gmail.com"`) is
unreachable, so `validate_data` returns 0 for every Context. -/
theorem validate_data_returns_zero (fid fmid : String) (c : Context) :
    (validate_data fid fmid c).1 = 0 := by
  have h : em_context_get_sender (vd_before_guard fid fmid c) =
      "tester@gmail.com" := by
    unfold em_context_get_sender
    rw [vd_before_guard_sender]
    rfl
  simp only [validate_data]
  rw [h, show (("tester@gmail.com" == "test@gmail.com") = false) from by decide]
  simp

/-- Claim C3 fails on the code: on an encrypted Context the STARTTLS hook
of the example validation module allocates five Owned Strings (the `"mid"`
lookups inside its three `create` calls, plus `em_context_tls_protocol` and
`em_context_tls_cipher` used inline via `.data`) and calls
`em_free_string` zero times, so the allocation/free balance fails. -/
theorem starttls_ownership_unbalanced :
    (validate_starttls_own "0A1B2C3D4E5F0102" tlsCtx).2.2.countP isAlloc = 5 ∧
    (validate_starttls_own "0A1B2C3D4E5F0102" tlsCtx).2.2.countP isFree = 0 ∧
    ownBalanced (validate_starttls_own "0A1B2C3D4E5F0102" tlsCtx).2.2 = false := by
  decide

/-- Dispatching an empty entry list passes, invokes nothing, and surfaces
no reply. -/
theorem dispatchGo_nil (d : Nat × String) (i : Nat) (c : Context) :
    dispatchGo d i [] c = ⟨false, c, [], none⟩ := rfl

/-- A rejecting head entry short-circuits: only it is invoked, and the
surfaced reply is the Context's response if set, else the default. -/
theorem dispatchGo_cons_reject (d : Nat × String) (i : Nat)
    (m : Context → Int × Context) (ms : List (Context → Int × Context))
    (c : Context) (h : ((m c).1 != 0) = true) :
    dispatchGo d i (m :: ms) c =
      ⟨true, (m c).2, [i], some ((m c).2.response.getD d)⟩ := by
  simp [dispatchGo, h]

/-- A passing head entry is invoked and dispatch continues on the rest
with its mutated Context. -/
theorem dispatchGo_cons_pass (d : Nat × String) (i : Nat)
    (m : Context → Int × Context) (ms : List (Context → Int × Context))
    (c : Context) (h : ((m c).1 != 0) = false) :
    dispatchGo d i (m :: ms) c =
      ⟨(dispatchGo d (i + 1) ms (m c).2).rejected,
       (dispatchGo d (i + 1) ms (m c).2).ctx,
       i :: (dispatchGo d (i + 1) ms (m c).2).trace,
       (dispatchGo d (i + 1) ms (m c).2).reply⟩ := by
  simp [dispatchGo, h]

/-- When a prefix of the entry list passes, dispatching the whole list is
the prefix dispatch followed by dispatching the suffix on the prefix's
resulting Context, with the invocation traces concatenated. -/
theorem dispatchGo_append_pass (d : Nat × String)
    (xs ys : List (Context → Int × Context)) (i : Nat) (c : Context)
    (h : (dispatchGo d i xs c).rejected = false) :
    dispatchGo d i (xs ++ ys) c =
      ⟨(dispatchGo d (i + xs.length) ys (dispatchGo d i xs c).ctx).rejected,
       (dispatchGo d (i + xs.length) ys (dispatchGo d i xs c).ctx).ctx,
       (dispatchGo d i xs c).trace ++
         (dispatchGo d (i + xs.length) ys (dispatchGo d i xs c).ctx).trace,
       (dispatchGo d (i + xs.length) ys (dispatchGo d i xs c).ctx).reply⟩ := by
  induction xs generalizing i c with
  | nil => simp [dispatchGo_nil]
  | cons x xs ih =>
    cases hx : ((x c).1 != 0) with
    | true =>
      rw [dispatchGo_cons_reject d i x xs c hx] at h
      simp at h
    | false =>
      rw [dispatchGo_cons_pass d i x xs c hx] at h
      simp at h
      have hlen : i + (x :: xs).length = i + 1 + xs.length := by
        simp [List.length_cons]
        omega
      rw [List.cons_append, dispatchGo_cons_pass d i x (xs ++ ys) c hx,
        ih (i + 1) (x c).2 h, dispatchGo_cons_pass d i x xs c hx, hlen]
      simp

/-- An all-pass dispatch invokes every entry point exactly once, in
registration order. -/
theorem dispatchGo_pass_trace (d : Nat × String)
    (xs : List (Context → Int × Context)) (i : Nat) (c : Context)
    (h : (dispatchGo d i xs c).rejected = false) :
    (dispatchGo d i xs c).trace = List.range' i xs.length := by
  induction xs generalizing i c with
  | nil => simp [dispatchGo_nil]
  | cons x xs ih =>
    cases hx : ((x c).1 != 0) with
    | true =>
      rw [dispatchGo_cons_reject d i x xs c hx] at h
      simp at h
    | false =>
      rw [dispatchGo_cons_pass d i x xs c hx] at h
      simp at h
      rw [dispatchGo_cons_pass d i x xs c hx]
      simp [List.length_cons, List.range'_succ, ih (i + 1) (x c).2 h]

/-- Characterization of a checkpoint dispatch whose registered entries
split as a passing prefix followed by a rejecting entry: every prefix
entry and the rejector are invoked once, in registration order, nothing
after is invoked, the final Context is the rejector's, and the reply is
its response if set, else the checkpoint default. -/
theorem dispatchCheckpoint_split_reject (cp : Checkpoint)
    (mods : List ValidationModule) (pre post : List (Context → Int × Context))
    (f : Context → Int × Context) (c : Context)
    (hsplit : checkpointEntries cp mods = pre ++ f :: post)
    (hpre : (dispatchGo (defaultReply cp) 0 pre c).rejected = false)
    (hrej : ((f (dispatchGo (defaultReply cp) 0 pre c).ctx).1 != 0) = true) :
    dispatchCheckpoint cp mods c =
      ⟨true, (f (dispatchGo (defaultReply cp) 0 pre c).ctx).2,
       List.range (pre.length + 1),
       some (((f (dispatchGo (defaultReply cp) 0 pre c).ctx).2).response.getD
         (defaultReply cp))⟩ := by
  unfold dispatchCheckpoint
  rw [hsplit, dispatchGo_append_pass (defaultReply cp) pre (f :: post) 0 c hpre]
  rw [show (0 : Nat) + pre.length = pre.length from Nat.zero_add _] at *
  rw [dispatchGo_cons_reject (defaultReply cp) pre.length f post _ hrej,
    dispatchGo_pass_trace (defaultReply cp) pre 0 c hpre]
  rw [List.range_succ, List.range_eq_range']

/-- Claim C1: validation dispatch short-circuits on rejection — when the
entries registered for a checkpoint split into a passing prefix, a
rejecting entry `f`, and a remainder, the prefix entries and `f` are
invoked exactly once each, in registration order (trace `0..pre.length`),
no later entry is invoked, the transaction moves to `Rejected`, and the
surfaced reply is the Context's response if the rejecting module set one,
else the checkpoint-specific default. -/
theorem validation_short_circuits_on_rejection (cp : Checkpoint)
    (mods : List ValidationModule) (pre post : List (Context → Int × Context))
    (f : Context → Int × Context) (c : Context) (rest : List Checkpoint)
    (hsplit : checkpointEntries cp mods = pre ++ f :: post)
    (hpre : (dispatchGo (defaultReply cp) 0 pre c).rejected = false)
    (hrej : ((f (dispatchGo (defaultReply cp) 0 pre c).ctx).1 != 0) = true) :
    dispatchCheckpoint cp mods c =
      ⟨true, (f (dispatchGo (defaultReply cp) 0 pre c).ctx).2,
       List.range (pre.length + 1),
       some (((f (dispatchGo (defaultReply cp) 0 pre c).ctx).2).response.getD
         (defaultReply cp))⟩ ∧
    (runFrom mods (cp :: rest) c).1 = TxState.Rejected ∧
    (∀ r, ((f (dispatchGo (defaultReply cp) 0 pre c).ctx).2).response = some r →
      (runFrom mods (cp :: rest) c).2.2 = some r) ∧
    (((f (dispatchGo (defaultReply cp) 0 pre c).ctx).2).response = none →
      (runFrom mods (cp :: rest) c).2.2 = some (defaultReply cp)) := by
  have hmain := dispatchCheckpoint_split_reject cp mods pre post f c hsplit hpre hrej
  have hrun : runFrom mods (cp :: rest) c =
      (TxState.Rejected, (f (dispatchGo (defaultReply cp) 0 pre c).ctx).2,
       some (((f (dispatchGo (defaultReply cp) 0 pre c).ctx).2).response.getD
         (defaultReply cp))) := by
    simp [runFrom, hmain]
  refine ⟨hmain, ?_, ?_, ?_⟩
  · rw [hrun]
  · intro r hr
    rw [hrun, hr]
    rfl
  · intro hr
    rw [hrun, hr]
    rfl

/-- Witness for `validation_short_circuits_on_rejection`: two modules
registered for the data checkpoint, the first rejecting — only index 0 is
invoked, the transaction is `Rejected`, and the reply is the data-default
because the rejector set no response. -/
theorem validation_short_circuits_on_rejection_witness :
    dispatchCheckpoint Checkpoint.data wMods wCtx =
      ⟨true, em_context_set wCtx "m1" "x", [0],
       some (defaultReply Checkpoint.data)⟩ ∧
    (runFrom wMods [Checkpoint.data] wCtx).1 = TxState.Rejected := by
  have h := validation_short_circuits_on_rejection Checkpoint.data wMods []
    [wf2] wf1 wCtx [] rfl rfl rfl
  refine ⟨?_, h.2.1⟩
  rw [h.1]
  rfl

/-- Claim C8: checkpoint rejection is not atomic with respect to the
Context — an auxiliary-store binding visible in the rejecting module's
final Context (whether written by an earlier module or by the rejector
itself before returning nonzero) is still visible in the transaction's
final Context after rejection; nothing is rolled back. -/
theorem rejection_preserves_prior_mutations (cp : Checkpoint)
    (mods : List ValidationModule) (pre post : List (Context → Int × Context))
    (f : Context → Int × Context) (c : Context) (rest : List Checkpoint)
    (k v : String)
    (hsplit : checkpointEntries cp mods = pre ++ f :: post)
    (hpre : (dispatchGo (defaultReply cp) 0 pre c).rejected = false)
    (hrej : ((f (dispatchGo (defaultReply cp) 0 pre c).ctx).1 != 0) = true)
    (hex : em_context_exists (f (dispatchGo (defaultReply cp) 0 pre c).ctx).2 k
      = true)
    (hget : em_context_get (f (dispatchGo (defaultReply cp) 0 pre c).ctx).2 k
      = v) :
    (runFrom mods (cp :: rest) c).1 = TxState.Rejected ∧
    em_context_exists (runFrom mods (cp :: rest) c).2.1 k = true ∧
    em_context_get (runFrom mods (cp :: rest) c).2.1 k = v := by
  have hmain := dispatchCheckpoint_split_reject cp mods pre post f c hsplit hpre hrej
  have hrun : runFrom mods (cp :: rest) c =
      (TxState.Rejected, (f (dispatchGo (defaultReply cp) 0 pre c).ctx).2,
       some (((f (dispatchGo (defaultReply cp) 0 pre c).ctx).2).response.getD
         (defaultReply cp))) := by
    simp [runFrom, hmain]
  rw [hrun]
  exact ⟨rfl, hex, hget⟩

/-- Witness for `rejection_preserves_prior_mutations`: module `N1` writes
`"test" ↦ "random"` and passes, `N2` rejects — after the rejected run the
binding is still present in the final Context. -/
theorem rejection_preserves_prior_mutations_witness :
    (runFrom wNMods [Checkpoint.data] wCtx).1 = TxState.Rejected ∧
    em_context_exists (runFrom wNMods [Checkpoint.data] wCtx).2.1 "test"
      = true ∧
    em_context_get (runFrom wNMods [Checkpoint.data] wCtx).2.1 "test"
      = "random" :=
  rejection_preserves_prior_mutations Checkpoint.data wNMods [wg1] [] wg2
    wCtx [] "test" "random" rfl rfl rfl (by decide) (by decide)

/-- Event dispatch invokes the entry points at indices `i, i+1, ...`, one
`(index, status)` pair per loaded module, in order. -/
theorem dispatchEventGo_trace (mods : List (Ev → Context → Int × Context))
    (ev : Ev) (i : Nat) (c : Context) :
    (dispatchEventGo i mods ev c).1.map Prod.fst = List.range' i mods.length := by
  induction mods generalizing i c with
  | nil => rfl
  | cons m ms ih =>
    simp [dispatchEventGo, ih, List.range'_succ]

/-- Claim C9: event dispatch is exhaustive and order-preserving — emitting
any lifecycle event invokes every loaded event module's emission entry
point exactly once, in registration order (the indices of the collected
statuses are exactly `0..mods.length-1`), whatever statuses the modules
return, and the transaction state is passed through untouched. -/
theorem event_dispatch_exhaustive_in_order
    (mods : List (Ev → Context → Int × Context)) (ev : Ev) (st : TxState)
    (c : Context) :
    (emitEvent mods ev st c).1 = st ∧
    (emitEvent mods ev st c).2.1.map Prod.fst = List.range mods.length := by
  refine ⟨rfl, ?_⟩
  show (dispatchEventGo 0 mods ev c).1.map Prod.fst = _
  rw [dispatchEventGo_trace, List.range_eq_range']
